import Mathlib

/-!
Shallow embedding of the UERANSIM gNB operator charm (src/src/charm.py).

The charm is a single-threaded, event-driven reconciler.  We model its
observable state (Juju config, relations, the workload container, the
persisted `gnb_running` stored-state flag, the unit status) as a record
`CharmState`, and each handler as a pure function
`CharmState → RunResult`, where `RunResult` carries the successor state,
the ordered list of externally visible side effects, and an uncaught
Python exception when one escapes the handler.

Python truthiness and the builtin `int` conversions are modelled
explicitly (`pyTruthyStr`, `pyIntOfOptStr`, `parseHexInt`): `int(None)`
raises `TypeError`, `int("")` and non-numeric strings raise `ValueError`.
Sign and the optional `0x` prefix of base-16 literals are modelled;
whitespace and underscore separators accepted by CPython are not, as no
claim depends on them.
-/

/-- Python exceptions that the embedded code can raise. -/
inductive PyError where
  | typeError : PyError
  | valueError : PyError
deriving DecidableEq, Repr

/-- Truthiness of `Optional[str]`: `None` and `""` are falsy. -/
def pyTruthyStr : Option String → Bool
  | none => false
  | some s => s ≠ ""

/-- Truthiness of `Optional[int]`: `None` and `0` are falsy. -/
def pyTruthyInt : Option Int → Bool
  | none => false
  | some n => n ≠ 0

/-- Value of a decimal digit character, if it is one. -/
def digitVal : Char → Option Nat
  | c => if c.isDigit then some (c.toNat - 48) else none

/-- Value of a hexadecimal digit character, if it is one. -/
def hexDigitVal (c : Char) : Option Nat :=
  if c.isDigit then some (c.toNat - 48)
  else if 97 ≤ c.toNat ∧ c.toNat ≤ 102 then some (c.toNat - 87)
  else if 65 ≤ c.toNat ∧ c.toNat ≤ 70 then some (c.toNat - 55)
  else none

/-- Accumulate digits of the given base; any non-digit character fails. -/
def parseDigitsAux (base : Nat) (dv : Char → Option Nat) : List Char → Nat → Option Nat
  | [], acc => some acc
  | c :: cs, acc =>
    match dv c with
    | some d => parseDigitsAux base dv cs (acc * base + d)
    | none => none

/-- Parse a non-empty run of digits of the given base. -/
def parseDigits (base : Nat) (dv : Char → Option Nat) (cs : List Char) : Option Nat :=
  if cs = [] then none else parseDigitsAux base dv cs 0

/-- Parse an optional sign followed by a magnitude. -/
def parseSigned (parseMag : List Char → Option Nat) : List Char → Option Int
  | '-' :: rest => (parseMag rest).map (fun n => -(n : Int))
  | '+' :: rest => (parseMag rest).map (fun n => (n : Int))
  | cs => (parseMag cs).map (fun n => (n : Int))

/-- Python `int(s)` on a string: decimal, optional sign. -/
def parseDecInt (s : String) : Option Int :=
  parseSigned (parseDigits 10 digitVal) s.data

/-- Magnitude of a base-16 literal: optional `0x`/`0X` prefix then hex digits. -/
def parseHexMag : List Char → Option Nat
  | '0' :: 'x' :: rest => parseDigits 16 hexDigitVal rest
  | '0' :: 'X' :: rest => parseDigits 16 hexDigitVal rest
  | cs => parseDigits 16 hexDigitVal cs

/-- Python `int(s, 16)` on a string: base-16, optional sign and `0x` prefix. -/
def parseHexInt (s : String) : Option Int :=
  parseSigned parseHexMag s.data

/-- Python `int(x)` on an `Optional[str]`: `int(None)` raises `TypeError`,
a string that is not a decimal literal raises `ValueError`. -/
def pyIntOfOptStr : Option String → Except PyError Int
  | none => Except.error PyError.typeError
  | some s =>
    match parseDecInt s with
    | some n => Except.ok n
    | none => Except.error PyError.valueError

/-- Python `repr` of one of our config-key strings (no escaping needed). -/
def pyStrRepr (s : String) : String := "\x27" ++ s ++ "\x27"

/-- Comma-separated body of a Python list repr. -/
def pyListReprAux : List String → String
  | [] => ""
  | [x] => pyStrRepr x
  | x :: xs => pyStrRepr x ++ ", " ++ pyListReprAux xs

/-- Python `repr` of a list of strings, as produced by an f-string. -/
def pyListRepr (l : List String) : String := "[" ++ pyListReprAux l ++ "]"

/-- Python `s.split("/")[0]`: the prefix of the string before the first slash. -/
def takeUntilSlashAux : List Char → List Char
  | [] => []
  | c :: cs => if c = '/' then [] else c :: takeUntilSlashAux cs

/-- Python `s.split("/")[0]` on a string. -/
def takeUntilSlash (s : String) : String := String.mk (takeUntilSlashAux s.data)

/-- The Juju configuration options of the charm (spec section 6); `none`
models an unset option, `some ""` an option set to the empty string. -/
structure Config where
  gnbAddress : Option String
  gnbInterface : Option String
  idLength : Option String
  mcc : Option String
  mnc : Option String
  nci : Option String
  sd : Option String
  sst : Option String
  tac : Option String
deriving DecidableEq, Repr

/-- The pebble service entry of the ueransim layer. -/
structure PebbleServiceSpec where
  override : String
  startup : String
  command : String
deriving DecidableEq, Repr

/-- The `services` section of `_ueransim_pebble_layer`. -/
def ueransimLayerServices : PebbleServiceSpec :=
  { override := "replace", startup := "enabled", command := "nr-gnb -c /etc/gnb.yaml" }

/-- The observable state of the `ueransim` workload container: pebble
reachability, existence of the `/etc` base directory, the content of
`/etc/gnb.yaml` (the only file the charm touches), and the pebble plan's
service entry for `ueransim` (the only service the charm manages). -/
structure ContainerState where
  canConnect : Bool
  baseDirExists : Bool
  gnbConfig : Option String
  planServices : Option PebbleServiceSpec
deriving DecidableEq, Repr

/-- Juju unit statuses used by the charm. -/
inductive Status where
  | active : Status
  | blocked : String → Status
  | waiting : String → Status
  | maintenance : Status
deriving DecidableEq, Repr

/-- Externally visible side effects of a handler, in execution order. -/
inductive Effect where
  | nadConfigChangedEmitted : Effect
  | configPushed : String → Effect
  | layerAdded : Effect
  | serviceRestarted : Effect
  | serviceStarted : Effect
  | serviceStopped : Effect
  | publishedIdentity : Nat → String → Int → Effect
deriving DecidableEq, Repr

/-- The state a handler of `UERANSIMOperatorCharm` can read and write:
config, the `fiveg-n2` and `fiveg_gnb_identity` relation lists (by
relation id), the N2 remote data (`amf_hostname`, `amf_port`), the
container, Multus readiness, leadership, the persisted `gnb_running`
stored-state flag, the unit status and the identity of unit and model. -/
structure CharmState where
  config : Config
  n2Relations : List Nat
  gnbIdentityRelations : List Nat
  amfHostname : Option String
  amfPort : Option Int
  container : ContainerState
  multusReady : Bool
  isLeader : Bool
  gnbRunning : Bool
  unitStatus : Status
  unitIp : String
  modelName : String
  appName : String
deriving DecidableEq, Repr

/-- Result of running one handler: successor state, ordered effects, and
the uncaught Python exception if one escaped the handler. -/
structure RunResult where
  state : CharmState
  effects : List Effect
  error : Option PyError
deriving DecidableEq, Repr

/-- `_get_sst_from_config`: `int(self.model.config.get("sst"))`. -/
def getSstFromConfig (c : Config) : Except PyError Int :=
  pyIntOfOptStr c.sst

/-- `_get_invalid_configs`: appends the name of each falsy option, in the
fixed source order gnb-address, id-length, mcc, mnc, nci, sd, sst, tac.
The sst check calls `_get_sst_from_config`, whose `int(...)` raises when
the option is unset or not a decimal literal; the exception propagates. -/
def getInvalidConfigs (c : Config) : Except PyError (List String) :=
  let l :=
    (if pyTruthyStr c.gnbAddress then [] else ["gnb-address"])
    ++ (if pyTruthyStr c.idLength then [] else ["id-length"])
    ++ (if pyTruthyStr c.mcc then [] else ["mcc"])
    ++ (if pyTruthyStr c.mnc then [] else ["mnc"])
    ++ (if pyTruthyStr c.nci then [] else ["nci"])
    ++ (if pyTruthyStr c.sd then [] else ["sd"])
  match getSstFromConfig c with
  | Except.error e => Except.error e
  | Except.ok sst =>
    Except.ok (l ++ (if sst ≠ 0 then [] else ["sst"])
      ++ (if pyTruthyStr c.tac then [] else ["tac"]))

/-- `_get_tac_as_int`: `int(config.get("tac"), 16)` with only `ValueError`
caught (returning `None`); `int(None, 16)` raises `TypeError`, which is
not caught and propagates. -/
def getTacAsInt (c : Config) : Except PyError (Option Int) :=
  match c.tac with
  | none => Except.error PyError.typeError
  | some s => Except.ok (parseHexInt s)

/-- `_gnb_name`: `f"{model}-ueransim-{app}"`. -/
def gnbName (s : CharmState) : String :=
  s.modelName ++ "-ueransim-" ++ s.appName

/-- `_config_file_content_matches`: `False` when `/etc/gnb.yaml` is absent,
otherwise compares the stored content byte-for-byte. -/
def configFileContentMatches (c : ContainerState) (content : String) : Bool :=
  match c.gnbConfig with
  | none => false
  | some existing => existing = content

/-- Modelled from the spec: the Jinja template `src/templates/gnb-config.yaml.j2`
is not under src/.  Per spec section 3 the Rendered Artifact is a text blob
produced deterministically from its parameters (byte-identical for identical
inputs, no timestamps or randomness), a YAML document with keys for AMF
hostname and port, link, NGAP and GTP addresses, id length, mcc, mnc, nci,
sd, sst and tac (spec section 6). -/
def renderGnbConfigFile (amfHostname : String) (amfPort : Int)
    (gnbGtpAddress gnbLinkAddress gnbNgapAddress : String)
    (idLength mcc mnc nci sd : String) (sst : Int) (tac : String) : String :=
  "amf_hostname: " ++ amfHostname
  ++ "\namf_port: " ++ toString amfPort
  ++ "\ngnb_gtp_address: " ++ gnbGtpAddress
  ++ "\ngnb_link_address: " ++ gnbLinkAddress
  ++ "\ngnb_ngap_address: " ++ gnbNgapAddress
  ++ "\nid_length: " ++ idLength
  ++ "\nmcc: " ++ mcc
  ++ "\nmnc: " ++ mnc
  ++ "\nnci: " ++ nci
  ++ "\nsd: " ++ sd
  ++ "\nsst: " ++ toString sst
  ++ "\ntac: " ++ tac ++ "\n"

/-- The content `_configure` renders: `_render_gnb_config_file` applied to
the N2 endpoint, the configured radio address with any CIDR suffix
stripped (`split("/")[0]`), the unit IP for both link and NGAP addresses,
and the configured parameters.  The `getD` defaults are only reached when
a gate above the render step failed, where the source never renders. -/
def renderedContent (s : CharmState) : String :=
  renderGnbConfigFile
    (s.amfHostname.getD "")
    (s.amfPort.getD 0)
    (takeUntilSlash (s.config.gnbAddress.getD ""))
    s.unitIp
    s.unitIp
    (s.config.idLength.getD "")
    (s.config.mcc.getD "")
    (s.config.mnc.getD "")
    (s.config.nci.getD "")
    (s.config.sd.getD "")
    ((getSstFromConfig s.config).toOption.getD 0)
    (s.config.tac.getD "")

/-- `_configure_ueransim_workload`: when the plan's services differ from
the layer or a restart was requested, add the layer (combine) and restart
the service only if the stored `gnb_running` flag is set. -/
def configureUeransimWorkload (c : ContainerState) (gnbRunning : Bool)
    (restart : Bool) : ContainerState × List Effect :=
  if c.planServices ≠ some ueransimLayerServices ∨ restart then
    let c2 := { c with planServices := some ueransimLayerServices }
    if gnbRunning then
      (c2, [Effect.layerAdded, Effect.serviceRestarted])
    else
      (c2, [Effect.layerAdded])
  else
    (c, [])

/-- `_update_fiveg_gnb_identity_relation_data`: returns (logging) when no
`fiveg_gnb_identity` relation exists; computes `_get_tac_as_int` (whose
`TypeError` for an unset tac propagates); a falsy tac (`None` or `0`) is
logged and nothing is published; otherwise publishes `{gnb_name, tac}` on
every identity relation.  The charm state itself is unchanged. -/
def updateFivegGnbIdentityRelationData (s : CharmState) :
    List Effect × Option PyError :=
  if s.gnbIdentityRelations = [] then
    ([], none)
  else
    match getTacAsInt s.config with
    | Except.error e => ([], some e)
    | Except.ok t =>
      if pyTruthyInt t then
        (s.gnbIdentityRelations.map
          (fun rid => Effect.publishedIdentity rid (gnbName s) (t.getD 0)), none)
      else
        ([], none)

/-- Steps 8-9 of `_configure`, after all gates passed: render the config
file content, diff it against the stored artifact, and on a difference
push the content and configure the workload with a restart request. -/
def writeStep (s : CharmState) : CharmState × List Effect :=
  let content := renderedContent s
  if configFileContentMatches s.container content then
    (s, [])
  else
    let wr := configureUeransimWorkload
      { s.container with gnbConfig := some content } s.gnbRunning true
    ({ s with container := wr.1 }, Effect.configPushed content :: wr.2)

/-- Steps 10-11 of `_configure` following the diff-and-write step:
publish identity data and enter Active (unless the publisher raised).
The leading effect is the `nad_config_changed` emission of step 2. -/
def postGates (s : CharmState) : RunResult :=
  let w := writeStep s
  let u := updateFivegGnbIdentityRelationData w.1
  match u.2 with
  | some e =>
    { state := w.1, effects := Effect.nadConfigChangedEmitted :: (w.2 ++ u.1),
      error := some e }
  | none =>
    { state := { w.1 with unitStatus := Status.active },
      effects := Effect.nadConfigChangedEmitted :: (w.2 ++ u.1), error := none }

/-- `_configure`: the status-gated reconciliation procedure.  Validation
first (an exception from the sst conversion propagates with no status
set); on invalid configs enter Blocked and stop; then emit
`nad_config_changed`; then the N2-relation, container, storage, Multus
and N2-data gates in source order; then the post-gate steps. -/
def configure (s : CharmState) : RunResult :=
  match getInvalidConfigs s.config with
  | Except.error e => { state := s, effects := [], error := some e }
  | Except.ok invalid =>
    if invalid = [] then
      if s.n2Relations = [] then
        { state := { s with unitStatus := Status.blocked "Waiting for N2 relation to be created" },
          effects := [Effect.nadConfigChangedEmitted], error := none }
      else if s.container.canConnect = false then
        { state := { s with unitStatus := Status.waiting "Waiting for container to be ready" },
          effects := [Effect.nadConfigChangedEmitted], error := none }
      else if s.container.baseDirExists = false then
        { state := { s with unitStatus := Status.waiting "Waiting for storage to be attached" },
          effects := [Effect.nadConfigChangedEmitted], error := none }
      else if s.multusReady = false then
        { state := { s with unitStatus := Status.waiting "Waiting for Multus to be ready" },
          effects := [Effect.nadConfigChangedEmitted], error := none }
      else if pyTruthyStr s.amfHostname = false ∨ pyTruthyInt s.amfPort = false then
        { state := { s with unitStatus := Status.waiting "Waiting for N2 information" },
          effects := [Effect.nadConfigChangedEmitted], error := none }
      else
        postGates s
    else
      { state := { s with unitStatus := Status.blocked ("Configurations are invalid: " ++ pyListRepr invalid) },
        effects := [], error := none }

/-- `_on_fiveg_gnb_identity_request`: non-leaders return immediately;
the leader publishes via `_update_fiveg_gnb_identity_relation_data`. -/
def onFivegGnbIdentityRequest (s : CharmState) : RunResult :=
  if s.isLeader = false then
    { state := s, effects := [], error := none }
  else
    let u := updateFivegGnbIdentityRelationData s
    { state := s, effects := u.1, error := u.2 }

/-- `_on_start_radio_action`: run `_configure` (an exception aborts the
handler), then start the service and set the flag only when the stored
`gnb_running` flag is false. -/
def onStartRadioAction (s : CharmState) : RunResult :=
  let r := configure s
  match r.error with
  | some e => { state := r.state, effects := r.effects, error := some e }
  | none =>
    if r.state.gnbRunning = false then
      { state := { r.state with gnbRunning := true },
        effects := r.effects ++ [Effect.serviceStarted], error := none }
    else
      { state := r.state, effects := r.effects, error := none }

/-- `_on_stop_radio_action`: run `_configure` (an exception aborts the
handler), then stop the service and clear the flag only when the stored
`gnb_running` flag is true. -/
def onStopRadioAction (s : CharmState) : RunResult :=
  let r := configure s
  match r.error with
  | some e => { state := r.state, effects := r.effects, error := some e }
  | none =>
    if r.state.gnbRunning = true then
      { state := { r.state with gnbRunning := false },
        effects := r.effects ++ [Effect.serviceStopped], error := none }
    else
      { state := r.state, effects := r.effects, error := none }

/-- Validation gate of `_configure` succeeded: no exception and an empty
invalid-config list. -/
def validationOk (s : CharmState) : Bool :=
  match getInvalidConfigs s.config with
  | Except.ok [] => true
  | _ => false

/-- All seven gates of `_configure` pass, so the render step is reached. -/
def gatesPass (s : CharmState) : Bool :=
  validationOk s
  && !s.n2Relations.isEmpty
  && s.container.canConnect
  && s.container.baseDirExists
  && s.multusReady
  && pyTruthyStr s.amfHostname
  && pyTruthyInt s.amfPort

/-- The effect is a config-file push. -/
def isPushEffect : Effect → Bool
  | Effect.configPushed _ => true
  | _ => false

/-- The effect is a service restart. -/
def isRestartEffect : Effect → Bool
  | Effect.serviceRestarted => true
  | _ => false

/-- The effect is an identity publication. -/
def isPublishEffect : Effect → Bool
  | Effect.publishedIdentity _ _ _ => true
  | _ => false

/-- The effect is a supervisor service start. -/
def isStartEffect : Effect → Bool
  | Effect.serviceStarted => true
  | _ => false

/-- The effect is a supervisor service stop. -/
def isStopEffect : Effect → Bool
  | Effect.serviceStopped => true
  | _ => false

/-- A fully valid configuration, as in the unit tests. -/
def validConfig : Config :=
  { gnbAddress := some "10.0.0.1/24", gnbInterface := none, idLength := some "32",
    mcc := some "208", mnc := some "93", nci := some "000000010", sd := some "010203",
    sst := some "1", tac := some "1" }

/-- A container that is reachable with storage attached and no file written. -/
def freshContainer : ContainerState :=
  { canConnect := true, baseDirExists := true, gnbConfig := none, planServices := none }

/-- A state in which every gate of `_configure` passes. -/
def sFull : CharmState :=
  { config := validConfig, n2Relations := [0], gnbIdentityRelations := [1],
    amfHostname := some "amf", amfPort := some 38412,
    container := freshContainer, multusReady := true, isLeader := true,
    gnbRunning := false, unitStatus := Status.maintenance,
    unitIp := "1.2.3.4", modelName := "whatever", appName := "ueransim" }

/-- A state whose config lacks only the sst option. -/
def sMissingSst : CharmState :=
  { sFull with config := { validConfig with sst := none } }

/-- A non-leader unit state in which every gate passes and the identity
relation has a peer. -/
def sNonLeader : CharmState :=
  { sFull with isLeader := false }

/-- A state that is valid but has no N2 relation, so reconciliation
blocks at the upstream-relation gate. -/
def sNoN2 : CharmState :=
  { sFull with n2Relations := [] }

/-- A state whose tac option is set to a non-hexadecimal string. -/
def sBadTac : CharmState :=
  { sFull with config := { validConfig with tac := some "zz" } }


/-- `_configure_ueransim_workload` only changes the plan services of the
container: reachability, storage and the config file are untouched. -/
theorem cuw_container_frame (c : ContainerState) (g r : Bool) :
    (configureUeransimWorkload c g r).1.canConnect = c.canConnect
    ∧ (configureUeransimWorkload c g r).1.baseDirExists = c.baseDirExists
    ∧ (configureUeransimWorkload c g r).1.gnbConfig = c.gnbConfig := by
  unfold configureUeransimWorkload
  split
  · split <;> simp
  · simp

/-- The effects of `_configure_ueransim_workload` are layer additions and
restarts only. -/
theorem cuw_effects (c : ContainerState) (g r : Bool) :
    ∀ e ∈ (configureUeransimWorkload c g r).2,
      e = Effect.layerAdded ∨ e = Effect.serviceRestarted := by
  unfold configureUeransimWorkload
  split
  · split <;> simp
  · simp

/-- The service is restarted by `_configure_ueransim_workload` with a
restart request exactly when the stored `gnb_running` flag is set. -/
theorem cuw_restart_iff (c : ContainerState) (g : Bool) :
    (Effect.serviceRestarted ∈ (configureUeransimWorkload c g true).2) ↔ g = true := by
  unfold configureUeransimWorkload
  cases g <;> simp

/-- With a restart request the layer is always added and the plan updated. -/
theorem cuw_restart_plan (c : ContainerState) (g : Bool) :
    (configureUeransimWorkload c g true).1.planServices = some ueransimLayerServices := by
  unfold configureUeransimWorkload
  cases g <;> simp

/-- `_update_fiveg_gnb_identity_relation_data` reads only the config, the
identity relations and the unit identity, so a container change is
invisible to it. -/
theorem update_ignores_container (s : CharmState) (c : ContainerState) :
    updateFivegGnbIdentityRelationData { s with container := c }
      = updateFivegGnbIdentityRelationData s := rfl

/-- Every effect of the identity publisher is a publication. -/
theorem update_effects_publish (s : CharmState) :
    ∀ e ∈ (updateFivegGnbIdentityRelationData s).1, isPublishEffect e = true := by
  unfold updateFivegGnbIdentityRelationData
  split
  · simp
  · split
    · simp
    · split
      · intro e he
        simp only [List.mem_map] at he
        obtain ⟨rid, _, rfl⟩ := he
        rfl
      · simp

/-- When the configured tac is present, `_get_tac_as_int` returns the
(caught) result of `int(tac, 16)`. -/
theorem getTacAsInt_of_some (c : Config) (t : String) (h : c.tac = some t) :
    getTacAsInt c = Except.ok (parseHexInt t) := by
  unfold getTacAsInt
  rw [h]

/-- When the configured tac is present, the identity publisher cannot
raise: `int(tac, 16)` either parses or its `ValueError` is caught. -/
theorem update_no_error_of_tac_some (s : CharmState) (t : String)
    (h : s.config.tac = some t) :
    (updateFivegGnbIdentityRelationData s).2 = none := by
  unfold updateFivegGnbIdentityRelationData
  rw [getTacAsInt_of_some s.config t h]
  split
  · rfl
  · split
    · next heq => exact absurd heq (by simp)
    · split <;> rfl

/-- The diff-and-write step always leaves `/etc/gnb.yaml` holding exactly
the rendered content: either it already matched, or it was just pushed. -/
theorem writeStep_gnbConfig (s : CharmState) :
    (writeStep s).1.container.gnbConfig = some (renderedContent s) := by
  simp only [writeStep]
  split
  · next hm =>
    unfold configFileContentMatches at hm
    split at hm
    · exact absurd hm (by simp)
    · next heq => rw [heq]; simp_all
  · have h := cuw_container_frame
      { s.container with gnbConfig := some (renderedContent s) } s.gnbRunning true
    simp [h.2.2]

/-- The diff-and-write step changes only the container's file content and
plan services; every other component of the charm state is untouched. -/
theorem writeStep_frame (s : CharmState) :
    (writeStep s).1.config = s.config
    ∧ (writeStep s).1.n2Relations = s.n2Relations
    ∧ (writeStep s).1.gnbIdentityRelations = s.gnbIdentityRelations
    ∧ (writeStep s).1.amfHostname = s.amfHostname
    ∧ (writeStep s).1.amfPort = s.amfPort
    ∧ (writeStep s).1.multusReady = s.multusReady
    ∧ (writeStep s).1.isLeader = s.isLeader
    ∧ (writeStep s).1.gnbRunning = s.gnbRunning
    ∧ (writeStep s).1.unitStatus = s.unitStatus
    ∧ (writeStep s).1.unitIp = s.unitIp
    ∧ (writeStep s).1.modelName = s.modelName
    ∧ (writeStep s).1.appName = s.appName
    ∧ (writeStep s).1.container.canConnect = s.container.canConnect
    ∧ (writeStep s).1.container.baseDirExists = s.container.baseDirExists := by
  simp only [writeStep]
  split
  · simp
  · have h := cuw_container_frame
      { s.container with gnbConfig := some (renderedContent s) } s.gnbRunning true
    simp [h.1, h.2.1]

/-- When the stored artifact already matches, the diff-and-write step does
nothing. -/
theorem writeStep_of_matches (s : CharmState)
    (h : configFileContentMatches s.container (renderedContent s) = true) :
    writeStep s = (s, []) := by
  simp [writeStep, h]

/-- Every effect of the diff-and-write step is a push of the rendered
content, a layer addition, or a service restart. -/
theorem writeStep_effects (s : CharmState) :
    ∀ e ∈ (writeStep s).2,
      e = Effect.configPushed (renderedContent s)
      ∨ e = Effect.layerAdded ∨ e = Effect.serviceRestarted := by
  simp only [writeStep]
  split
  · simp
  · intro e he
    simp only [List.mem_cons] at he
    rcases he with rfl | he
    · left; rfl
    · right
      exact cuw_effects _ s.gnbRunning true e he

/-- The post-gate state is the diff-and-write state, possibly with the
unit status set to Active. -/
theorem postGates_state_eq (s : CharmState) :
    (postGates s).state = (writeStep s).1
    ∨ (postGates s).state = { (writeStep s).1 with unitStatus := Status.active } := by
  simp only [postGates]
  split
  · left; rfl
  · right; rfl

/-- The effects of the post-gate steps: the NAD emission, then the
diff-and-write effects, then the publisher effects. -/
theorem postGates_effects (s : CharmState) :
    (postGates s).effects
      = Effect.nadConfigChangedEmitted
        :: ((writeStep s).2 ++ (updateFivegGnbIdentityRelationData (writeStep s).1).1) := by
  simp only [postGates]
  split <;> rfl

/-- The post-gate error is exactly the publisher error. -/
theorem postGates_error (s : CharmState) :
    (postGates s).error = (updateFivegGnbIdentityRelationData (writeStep s).1).2 := by
  simp only [postGates]
  split
  · next heq => rw [heq]
  · next heq => rw [heq]

/-- When the publisher does not raise, the post-gate status is Active. -/
theorem postGates_status_active (s : CharmState)
    (h : (updateFivegGnbIdentityRelationData (writeStep s).1).2 = none) :
    (postGates s).state.unitStatus = Status.active := by
  simp only [postGates]
  split
  · next heq => rw [h] at heq; exact absurd heq (by simp)
  · rfl

/-- The post-gate steps leave every charm-state component other than the
unit status and the container file and plan unchanged. -/
theorem postGates_frame (s : CharmState) :
    (postGates s).state.config = s.config
    ∧ (postGates s).state.n2Relations = s.n2Relations
    ∧ (postGates s).state.gnbIdentityRelations = s.gnbIdentityRelations
    ∧ (postGates s).state.amfHostname = s.amfHostname
    ∧ (postGates s).state.amfPort = s.amfPort
    ∧ (postGates s).state.multusReady = s.multusReady
    ∧ (postGates s).state.isLeader = s.isLeader
    ∧ (postGates s).state.gnbRunning = s.gnbRunning
    ∧ (postGates s).state.unitIp = s.unitIp
    ∧ (postGates s).state.modelName = s.modelName
    ∧ (postGates s).state.appName = s.appName
    ∧ (postGates s).state.container.canConnect = s.container.canConnect
    ∧ (postGates s).state.container.baseDirExists = s.container.baseDirExists := by
  obtain ⟨h1, h2, h3, h4, h5, h6, h7, h8, _h9, h10, h11, h12, h13, h14⟩ := writeStep_frame s
  rcases postGates_state_eq s with h | h <;> rw [h] <;>
    exact ⟨h1, h2, h3, h4, h5, h6, h7, h8, h10, h11, h12, h13, h14⟩

/-- The post-gate steps leave `/etc/gnb.yaml` holding the rendered content. -/
theorem postGates_gnbConfig (s : CharmState) :
    (postGates s).state.container.gnbConfig = some (renderedContent s) := by
  rcases postGates_state_eq s with h | h <;> rw [h] <;> exact writeStep_gnbConfig s

/-- The validation check of `_configure` succeeded exactly when
`_get_invalid_configs` returned an empty list. -/
theorem validationOk_iff (s : CharmState) :
    validationOk s = true ↔ getInvalidConfigs s.config = Except.ok [] := by
  unfold validationOk
  cases h : getInvalidConfigs s.config with
  | error e => simp
  | ok l => cases l <;> simp

/-- Splitting `gatesPass` into the seven gate conditions. -/
theorem gatesPass_elim (s : CharmState) (h : gatesPass s = true) :
    getInvalidConfigs s.config = Except.ok []
    ∧ s.n2Relations ≠ []
    ∧ s.container.canConnect = true
    ∧ s.container.baseDirExists = true
    ∧ s.multusReady = true
    ∧ pyTruthyStr s.amfHostname = true
    ∧ pyTruthyInt s.amfPort = true := by
  unfold gatesPass at h
  simp only [Bool.and_eq_true] at h
  obtain ⟨⟨⟨⟨⟨⟨hv, hn2⟩, hcc⟩, hbd⟩, hmu⟩, hhost⟩, hport⟩ := h
  rw [validationOk_iff] at hv
  refine ⟨hv, ?_, hcc, hbd, hmu, hhost, hport⟩
  simpa using hn2

/-- When all seven gates pass, `_configure` runs the post-gate steps. -/
theorem configure_eq_postGates (s : CharmState) (h : gatesPass s = true) :
    configure s = postGates s := by
  obtain ⟨hv, hn2, hcc, hbd, hmu, hhost, hport⟩ := gatesPass_elim s h
  simp only [configure]
  rw [hv]
  simp [hn2, hcc, hbd, hmu, hhost, hport]

/-- Branch equation: a raising validation aborts `_configure` with no
status change and no effects. -/
theorem configure_of_validation_error (s : CharmState) (e : PyError)
    (hv : getInvalidConfigs s.config = Except.error e) :
    configure s = { state := s, effects := [], error := some e } := by
  simp only [configure]
  rw [hv]

/-- Branch equation: a non-empty invalid-config list blocks with the
f-string message and evaluates nothing further. -/
theorem configure_of_invalid (s : CharmState) (l : List String)
    (hv : getInvalidConfigs s.config = Except.ok l) (hne : l ≠ []) :
    configure s
      = { state := { s with unitStatus := Status.blocked ("Configurations are invalid: " ++ pyListRepr l) },
          effects := [], error := none } := by
  simp only [configure]
  rw [hv]
  simp [hne]

/-- Branch equation: with valid config and no N2 relation, `_configure`
blocks after emitting the NAD refresh. -/
theorem configure_of_no_n2 (s : CharmState)
    (hv : getInvalidConfigs s.config = Except.ok []) (hn2 : s.n2Relations = []) :
    configure s
      = { state := { s with unitStatus := Status.blocked "Waiting for N2 relation to be created" },
          effects := [Effect.nadConfigChangedEmitted], error := none } := by
  simp only [configure]
  rw [hv]
  simp [hn2]

/-- Branch equation: unreachable container. -/
theorem configure_of_cant_connect (s : CharmState)
    (hv : getInvalidConfigs s.config = Except.ok []) (hn2 : s.n2Relations ≠ [])
    (hcc : s.container.canConnect = false) :
    configure s
      = { state := { s with unitStatus := Status.waiting "Waiting for container to be ready" },
          effects := [Effect.nadConfigChangedEmitted], error := none } := by
  simp only [configure]
  rw [hv]
  simp [hn2, hcc]

/-- Branch equation: missing storage. -/
theorem configure_of_no_storage (s : CharmState)
    (hv : getInvalidConfigs s.config = Except.ok []) (hn2 : s.n2Relations ≠ [])
    (hcc : s.container.canConnect = true) (hbd : s.container.baseDirExists = false) :
    configure s
      = { state := { s with unitStatus := Status.waiting "Waiting for storage to be attached" },
          effects := [Effect.nadConfigChangedEmitted], error := none } := by
  simp only [configure]
  rw [hv]
  simp [hn2, hcc, hbd]

/-- Branch equation: Multus not ready. -/
theorem configure_of_multus_not_ready (s : CharmState)
    (hv : getInvalidConfigs s.config = Except.ok []) (hn2 : s.n2Relations ≠ [])
    (hcc : s.container.canConnect = true) (hbd : s.container.baseDirExists = true)
    (hmu : s.multusReady = false) :
    configure s
      = { state := { s with unitStatus := Status.waiting "Waiting for Multus to be ready" },
          effects := [Effect.nadConfigChangedEmitted], error := none } := by
  simp only [configure]
  rw [hv]
  simp [hn2, hcc, hbd, hmu]

/-- Branch equation: N2 endpoint data not yet published. -/
theorem configure_of_no_n2_info (s : CharmState)
    (hv : getInvalidConfigs s.config = Except.ok []) (hn2 : s.n2Relations ≠ [])
    (hcc : s.container.canConnect = true) (hbd : s.container.baseDirExists = true)
    (hmu : s.multusReady = true)
    (hn2i : pyTruthyStr s.amfHostname = false ∨ pyTruthyInt s.amfPort = false) :
    configure s
      = { state := { s with unitStatus := Status.waiting "Waiting for N2 information" },
          effects := [Effect.nadConfigChangedEmitted], error := none } := by
  simp only [configure]
  rw [hv]
  rcases hn2i with h | h <;> simp [hn2, hcc, hbd, hmu, h]

/-- A reconciliation pass that ends Active without an exception passed
all seven gates. -/
theorem configure_active_gatesPass (s : CharmState)
    (ha : (configure s).state.unitStatus = Status.active)
    (he : (configure s).error = none) : gatesPass s = true := by
  cases hv : getInvalidConfigs s.config with
  | error e =>
    rw [configure_of_validation_error s e hv] at he
    exact absurd he (by simp)
  | ok invalid =>
    rcases Decidable.em (invalid = []) with hinv | hinv
    · subst hinv
      rcases Decidable.em (s.n2Relations = []) with hn2 | hn2
      · rw [configure_of_no_n2 s hv hn2] at ha
        exact absurd ha (by simp)
      · cases hcc : s.container.canConnect with
        | false =>
          rw [configure_of_cant_connect s hv hn2 hcc] at ha
          exact absurd ha (by simp)
        | true =>
          cases hbd : s.container.baseDirExists with
          | false =>
            rw [configure_of_no_storage s hv hn2 hcc hbd] at ha
            exact absurd ha (by simp)
          | true =>
            cases hmu : s.multusReady with
            | false =>
              rw [configure_of_multus_not_ready s hv hn2 hcc hbd hmu] at ha
              exact absurd ha (by simp)
            | true =>
              cases hho : pyTruthyStr s.amfHostname with
              | false =>
                rw [configure_of_no_n2_info s hv hn2 hcc hbd hmu (Or.inl hho)] at ha
                exact absurd ha (by simp)
              | true =>
                cases hpo : pyTruthyInt s.amfPort with
                | false =>
                  rw [configure_of_no_n2_info s hv hn2 hcc hbd hmu (Or.inr hpo)] at ha
                  exact absurd ha (by simp)
                | true =>
                  unfold gatesPass validationOk
                  rw [hv]
                  simp [hn2, hcc, hbd, hmu, hho, hpo]
    · rw [configure_of_invalid s invalid hv hinv] at ha
      exact absurd ha (by simp)

/-- Reconciliation never changes the config, the relation lists, the N2
data, Multus readiness, leadership, the stored `gnb_running` flag, the
unit identity, or the container reachability and storage. -/
theorem configure_frame (s : CharmState) :
    (configure s).state.config = s.config
    ∧ (configure s).state.n2Relations = s.n2Relations
    ∧ (configure s).state.gnbIdentityRelations = s.gnbIdentityRelations
    ∧ (configure s).state.amfHostname = s.amfHostname
    ∧ (configure s).state.amfPort = s.amfPort
    ∧ (configure s).state.multusReady = s.multusReady
    ∧ (configure s).state.isLeader = s.isLeader
    ∧ (configure s).state.gnbRunning = s.gnbRunning
    ∧ (configure s).state.unitIp = s.unitIp
    ∧ (configure s).state.modelName = s.modelName
    ∧ (configure s).state.appName = s.appName
    ∧ (configure s).state.container.canConnect = s.container.canConnect
    ∧ (configure s).state.container.baseDirExists = s.container.baseDirExists := by
  simp only [configure]
  split
  · simp
  · split
    · split
      · simp
      · split
        · simp
        · split
          · simp
          · split
            · simp
            · split
              · simp
              · exact postGates_frame s
    · simp

/-- A configuration that passes validation has a truthy (present,
non-empty) tac option: otherwise `"tac"` would be in the invalid list. -/
theorem validation_tac_truthy (c : Config) (h : getInvalidConfigs c = Except.ok []) :
    pyTruthyStr c.tac = true := by
  simp only [getInvalidConfigs] at h
  cases hs : getSstFromConfig c with
  | error e => rw [hs] at h; exact absurd h (by simp)
  | ok sst =>
    rw [hs] at h
    cases hht : pyTruthyStr c.tac with
    | true => rfl
    | false => simp [hht] at h

/-- A truthy optional string is present. -/
theorem tac_some_of_truthy (c : Config) (h : pyTruthyStr c.tac = true) :
    ∃ t, c.tac = some t := by
  cases htac : c.tac with
  | none => rw [htac] at h; exact absurd h (by simp [pyTruthyStr])
  | some t => exact ⟨t, rfl⟩

/-- Under a validated configuration the identity publisher cannot raise. -/
theorem update_no_error_of_validation (s : CharmState)
    (h : getInvalidConfigs s.config = Except.ok []) :
    (updateFivegGnbIdentityRelationData s).2 = none := by
  obtain ⟨t, ht⟩ := tac_some_of_truthy s.config (validation_tac_truthy s.config h)
  exact update_no_error_of_tac_some s t ht

/-- When all gates pass, reconciliation raises nothing and ends Active. -/
theorem configure_gates_active (s : CharmState) (h : gatesPass s = true) :
    (configure s).error = none ∧ (configure s).state.unitStatus = Status.active := by
  have hv := (gatesPass_elim s h).1
  have hv2 : getInvalidConfigs (writeStep s).1.config = Except.ok [] := by
    rw [(writeStep_frame s).1]; exact hv
  have hu := update_no_error_of_validation (writeStep s).1 hv2
  rw [configure_eq_postGates s h]
  exact ⟨by rw [postGates_error]; exact hu, postGates_status_active s hu⟩

/-- A list in which every element fails the predicate has count zero. -/
theorem countP_zero_of_all {p : Effect → Bool} (l : List Effect)
    (h : ∀ e ∈ l, p e = false) : l.countP p = 0 := by
  induction l with
  | nil => rfl
  | cons a l ih =>
    rw [List.countP_cons]
    have ha := h a (by simp)
    simp [ha, ih (fun e he => h e (by simp [he]))]

/-- Classification of reconciliation effects: a NAD emission, a push of
the rendered content, a layer addition, a restart, or a publication.
In particular `_configure` never starts or stops the service itself. -/
theorem configure_effect_mem (s : CharmState) :
    ∀ e ∈ (configure s).effects,
      e = Effect.nadConfigChangedEmitted
      ∨ e = Effect.configPushed (renderedContent s)
      ∨ e = Effect.layerAdded
      ∨ e = Effect.serviceRestarted
      ∨ isPublishEffect e = true := by
  intro e he
  simp only [configure] at he
  split at he
  · simp at he
  · split at he
    · split at he
      · simp at he; simp [he]
      · split at he
        · simp at he; simp [he]
        · split at he
          · simp at he; simp [he]
          · split at he
            · simp at he; simp [he]
            · split at he
              · simp at he; simp [he]
              · rw [postGates_effects] at he
                simp only [List.mem_cons, List.mem_append] at he
                rcases he with rfl | he | he
                · left; rfl
                · rcases writeStep_effects s e he with h | h | h
                  · right; left; exact h
                  · right; right; left; exact h
                  · right; right; right; left; exact h
                · right; right; right; right
                  exact update_effects_publish (writeStep s).1 e he
    · simp at he

/-- Building `gatesPass` from the seven gate conditions. -/
theorem gatesPass_intro (s : CharmState)
    (hv : getInvalidConfigs s.config = Except.ok []) (hn2 : s.n2Relations ≠ [])
    (hcc : s.container.canConnect = true) (hbd : s.container.baseDirExists = true)
    (hmu : s.multusReady = true) (hho : pyTruthyStr s.amfHostname = true)
    (hpo : pyTruthyInt s.amfPort = true) : gatesPass s = true := by
  unfold gatesPass validationOk
  rw [hv]
  simp [hn2, hcc, hbd, hmu, hho, hpo]

/-- A container that holds exactly the candidate content matches it. -/
theorem matches_of_same_content (c : ContainerState) (content : String)
    (h : c.gnbConfig = some content) :
    configFileContentMatches c content = true := by
  unfold configFileContentMatches
  rw [h]
  simp

/-- Branch equation of the diff-and-write step when the content differs. -/
theorem writeStep_of_differs (s : CharmState)
    (hd : configFileContentMatches s.container (renderedContent s) = false) :
    writeStep s
      = ({ s with container := (configureUeransimWorkload
            { s.container with gnbConfig := some (renderedContent s) } s.gnbRunning true).1 },
         Effect.configPushed (renderedContent s)
           :: (configureUeransimWorkload
            { s.container with gnbConfig := some (renderedContent s) } s.gnbRunning true).2) := by
  simp only [writeStep]
  rw [hd]
  simp

/-- The diff-and-write step pushes the config file at most once. -/
theorem writeStep_push_le_one (s : CharmState) :
    (writeStep s).2.countP isPushEffect ≤ 1 := by
  simp only [writeStep]
  split
  · simp
  · rw [List.countP_cons]
    have hz : (configureUeransimWorkload
        { s.container with gnbConfig := some (renderedContent s) } s.gnbRunning true).2.countP
          isPushEffect = 0 := by
      apply countP_zero_of_all
      intro e he
      rcases cuw_effects _ s.gnbRunning true e he with rfl | rfl <;> rfl
    rw [hz]
    simp [isPushEffect]

/-- The layer is always added when a restart is requested. -/
theorem cuw_layer_mem (c : ContainerState) (g : Bool) :
    Effect.layerAdded ∈ (configureUeransimWorkload c g true).2 := by
  unfold configureUeransimWorkload
  cases g <;> simp

/-- Any count of effects vanishes on the publisher output when the
predicate rejects publications. -/
theorem update_count_zero (s : CharmState) (p : Effect → Bool)
    (hp : ∀ rid name v, p (Effect.publishedIdentity rid name v) = false) :
    (updateFivegGnbIdentityRelationData s).1.countP p = 0 := by
  apply countP_zero_of_all
  intro e he
  have hpub := update_effects_publish s e he
  cases e <;> simp_all [isPublishEffect]

/-- The publisher never restarts the service. -/
theorem update_no_restart (s : CharmState) :
    Effect.serviceRestarted ∉ (updateFivegGnbIdentityRelationData s).1 := by
  intro h
  have := update_effects_publish s _ h
  simp [isPublishEffect] at this

/-- An unparseable (non-base-16) present tac makes the publisher publish
nothing at all. -/
theorem update_no_publish_of_tac_unparseable (s : CharmState) (t : String)
    (ht : s.config.tac = some t) (hp : parseHexInt t = none) :
    (updateFivegGnbIdentityRelationData s).1 = [] := by
  unfold updateFivegGnbIdentityRelationData
  rw [getTacAsInt_of_some s.config t ht, hp]
  split <;> simp [pyTruthyInt]

/-- The post-gate container equals the diff-and-write container. -/
theorem postGates_container (s : CharmState) :
    (postGates s).state.container = (writeStep s).1.container := by
  rcases postGates_state_eq s with h | h <;> rw [h]

/-- Reconciliation never emits a supervisor start call. -/
theorem configure_no_start (s : CharmState) :
    (configure s).effects.countP isStartEffect = 0 := by
  apply countP_zero_of_all
  intro e he
  rcases configure_effect_mem s e he with rfl | rfl | rfl | rfl | hp
  · rfl
  · rfl
  · rfl
  · rfl
  · cases e <;> simp_all [isPublishEffect, isStartEffect]

/-- Reconciliation never emits a supervisor stop call. -/
theorem configure_no_stop (s : CharmState) :
    (configure s).effects.countP isStopEffect = 0 := by
  apply countP_zero_of_all
  intro e he
  rcases configure_effect_mem s e he with rfl | rfl | rfl | rfl | hp
  · rfl
  · rfl
  · rfl
  · rfl
  · cases e <;> simp_all [isPublishEffect, isStopEffect]

/-- Shape of the start action when the flag is clear: one start call is
issued and the flag is set. -/
theorem onStart_of_flag_false (s : CharmState)
    (he : (configure s).error = none) (hf : s.gnbRunning = false) :
    (onStartRadioAction s).state.gnbRunning = true
    ∧ (onStartRadioAction s).effects.countP isStartEffect = 1
    ∧ (onStartRadioAction s).effects.countP isStopEffect = 0 := by
  have hrun : (configure s).state.gnbRunning = false := by
    rw [(configure_frame s).2.2.2.2.2.2.2.1]; exact hf
  simp only [onStartRadioAction]
  rw [he]
  simp only [hrun]
  simp [List.countP_append, List.countP_cons, configure_no_start s, configure_no_stop s,
    isStartEffect, isStopEffect]

/-- Shape of the start action when the flag is already set: no start call,
flag unchanged. -/
theorem onStart_of_flag_true (s : CharmState)
    (he : (configure s).error = none) (hf : s.gnbRunning = true) :
    (onStartRadioAction s).state.gnbRunning = true
    ∧ (onStartRadioAction s).effects.countP isStartEffect = 0
    ∧ (onStartRadioAction s).effects.countP isStopEffect = 0 := by
  have hrun : (configure s).state.gnbRunning = true := by
    rw [(configure_frame s).2.2.2.2.2.2.2.1]; exact hf
  simp only [onStartRadioAction]
  rw [he]
  simp only [hrun]
  simp [configure_no_start s, configure_no_stop s, hrun]

/-- Shape of the stop action when the flag is set: one stop call is
issued and the flag is cleared. -/
theorem onStop_of_flag_true (s : CharmState)
    (he : (configure s).error = none) (hf : s.gnbRunning = true) :
    (onStopRadioAction s).state.gnbRunning = false
    ∧ (onStopRadioAction s).effects.countP isStopEffect = 1
    ∧ (onStopRadioAction s).effects.countP isStartEffect = 0 := by
  have hrun : (configure s).state.gnbRunning = true := by
    rw [(configure_frame s).2.2.2.2.2.2.2.1]; exact hf
  simp only [onStopRadioAction]
  rw [he]
  simp only [hrun]
  simp [List.countP_append, List.countP_cons, configure_no_start s, configure_no_stop s,
    isStartEffect, isStopEffect]

/-- Shape of the stop action when the flag is already clear: no stop
call, flag unchanged. -/
theorem onStop_of_flag_false (s : CharmState)
    (he : (configure s).error = none) (hf : s.gnbRunning = false) :
    (onStopRadioAction s).state.gnbRunning = false
    ∧ (onStopRadioAction s).effects.countP isStopEffect = 0
    ∧ (onStopRadioAction s).effects.countP isStartEffect = 0 := by
  have hrun : (configure s).state.gnbRunning = false := by
    rw [(configure_frame s).2.2.2.2.2.2.2.1]; exact hf
  simp only [onStopRadioAction]
  rw [he]
  simp only [hrun]
  simp [configure_no_start s, configure_no_stop s, hrun]

/-- C1 (code bug evaluation): in a configuration where every required
option is set except sst, `_configure` does not end Blocked listing the
missing keys — `_get_invalid_configs` evaluates `int(None)` inside
`_get_sst_from_config` and the `TypeError` escapes the handler, leaving
the unit status untouched and producing no effects. -/
theorem c1_unset_sst_raises_typeerror :
    configure sMissingSst
      = { state := sMissingSst, effects := [], error := some PyError.typeError }
    ∧ (configure sMissingSst).state.unitStatus = Status.maintenance := by
  constructor <;> rfl

/-- C2 (counterexample): a unit that is not the leader, with valid config
and an established identity relation, publishes identity facts as the
tail step of a successful reconciliation — `_configure` line 148 calls
the publisher without a leadership check. -/
theorem c2_counterexample_nonleader_tail_publish :
    sNonLeader.isLeader = false
    ∧ (configure sNonLeader).error = none
    ∧ (configure sNonLeader).state.unitStatus = Status.active
    ∧ (configure sNonLeader).effects.countP isPublishEffect = 1 := by
  refine ⟨rfl, ?_, ?_, ?_⟩ <;> decide

/-- C2 (amended): a non-leader unit never publishes identity facts when
handling an explicit identity request: `_on_fiveg_gnb_identity_request`
returns before touching the relation data. -/
theorem c2_nonleader_request_never_publishes (s : CharmState)
    (h : s.isLeader = false) :
    onFivegGnbIdentityRequest s = { state := s, effects := [], error := none } := by
  unfold onFivegGnbIdentityRequest
  rw [h]
  simp

/-- C2 amended-claim witness at a concrete non-leader state. -/
theorem c2_nonleader_request_never_publishes_witness :
    sNonLeader.isLeader = false
    ∧ onFivegGnbIdentityRequest sNonLeader
        = { state := sNonLeader, effects := [], error := none } :=
  ⟨rfl, c2_nonleader_request_never_publishes sNonLeader rfl⟩

/-- C8: a normal reconciliation pass never changes the persisted
`gnb_running` flag, and neither does the identity-request handler; only
the start-radio and stop-radio actions write it. -/
theorem c8_reconciliation_preserves_running_flag (s : CharmState) :
    (configure s).state.gnbRunning = s.gnbRunning
    ∧ (onFivegGnbIdentityRequest s).state.gnbRunning = s.gnbRunning := by
  refine ⟨(configure_frame s).2.2.2.2.2.2.2.1, ?_⟩
  unfold onFivegGnbIdentityRequest
  split <;> rfl

/-- C4: on every reconciliation pass whose configuration validation
succeeds, the `nad_config_changed` event (the network-attachment
re-declaration) is the first effect — before the N2-relation gate and all
later gates, hence also on every pass that subsequently blocks or waits. -/
theorem c4_nad_declared_on_every_validated_pass (s : CharmState)
    (h : validationOk s = true) :
    (configure s).effects.head? = some Effect.nadConfigChangedEmitted := by
  rw [validationOk_iff] at h
  rcases Decidable.em (s.n2Relations = []) with hn2 | hn2
  · rw [configure_of_no_n2 s h hn2]; rfl
  · cases hcc : s.container.canConnect with
    | false => rw [configure_of_cant_connect s h hn2 hcc]; rfl
    | true =>
      cases hbd : s.container.baseDirExists with
      | false => rw [configure_of_no_storage s h hn2 hcc hbd]; rfl
      | true =>
        cases hmu : s.multusReady with
        | false => rw [configure_of_multus_not_ready s h hn2 hcc hbd hmu]; rfl
        | true =>
          cases hho : pyTruthyStr s.amfHostname with
          | false => rw [configure_of_no_n2_info s h hn2 hcc hbd hmu (Or.inl hho)]; rfl
          | true =>
            cases hpo : pyTruthyInt s.amfPort with
            | false => rw [configure_of_no_n2_info s h hn2 hcc hbd hmu (Or.inr hpo)]; rfl
            | true =>
              rw [configure_eq_postGates s (gatesPass_intro s h hn2 hcc hbd hmu hho hpo),
                postGates_effects]
              rfl

/-- C4 witness: a valid configuration that blocks at the N2-relation gate
still re-declares the network attachment first. -/
theorem c4_nad_declared_on_every_validated_pass_witness :
    validationOk sNoN2 = true
    ∧ (configure sNoN2).effects.head? = some Effect.nadConfigChangedEmitted :=
  ⟨by decide, c4_nad_declared_on_every_validated_pass sNoN2 (by decide)⟩

/-- C7: the start-radio and stop-radio actions are idempotent on the
persisted flag: when the flag already matches the requested state no
supervisor start/stop call is issued and the flag is unchanged; starting
from a clear flag issues exactly one start call and sets it, stopping
from a set flag issues exactly one stop call and clears it. -/
theorem c7_radio_actions_idempotent (s : CharmState)
    (he : (configure s).error = none) :
    (s.gnbRunning = true →
      (onStartRadioAction s).state.gnbRunning = true
      ∧ (onStartRadioAction s).effects.countP isStartEffect = 0
      ∧ (onStartRadioAction s).effects.countP isStopEffect = 0)
    ∧ (s.gnbRunning = false →
      (onStartRadioAction s).state.gnbRunning = true
      ∧ (onStartRadioAction s).effects.countP isStartEffect = 1)
    ∧ (s.gnbRunning = false →
      (onStopRadioAction s).state.gnbRunning = false
      ∧ (onStopRadioAction s).effects.countP isStopEffect = 0
      ∧ (onStopRadioAction s).effects.countP isStartEffect = 0)
    ∧ (s.gnbRunning = true →
      (onStopRadioAction s).state.gnbRunning = false
      ∧ (onStopRadioAction s).effects.countP isStopEffect = 1) := by
  refine ⟨fun hf => onStart_of_flag_true s he hf,
    fun hf => ⟨(onStart_of_flag_false s he hf).1, (onStart_of_flag_false s he hf).2.1⟩,
    fun hf => onStop_of_flag_false s he hf,
    fun hf => ⟨(onStop_of_flag_true s he hf).1, (onStop_of_flag_true s he hf).2.1⟩⟩

/-- C7 witness at a concrete state with the flag clear. -/
theorem c7_radio_actions_idempotent_witness :
    (configure sFull).error = none
    ∧ ((sFull.gnbRunning = true →
      (onStartRadioAction sFull).state.gnbRunning = true
      ∧ (onStartRadioAction sFull).effects.countP isStartEffect = 0
      ∧ (onStartRadioAction sFull).effects.countP isStopEffect = 0)
    ∧ (sFull.gnbRunning = false →
      (onStartRadioAction sFull).state.gnbRunning = true
      ∧ (onStartRadioAction sFull).effects.countP isStartEffect = 1)
    ∧ (sFull.gnbRunning = false →
      (onStopRadioAction sFull).state.gnbRunning = false
      ∧ (onStopRadioAction sFull).effects.countP isStopEffect = 0
      ∧ (onStopRadioAction sFull).effects.countP isStartEffect = 0)
    ∧ (sFull.gnbRunning = true →
      (onStopRadioAction sFull).state.gnbRunning = false
      ∧ (onStopRadioAction sFull).effects.countP isStopEffect = 1)) :=
  ⟨by decide, c7_radio_actions_idempotent sFull (by decide)⟩

/-- C10: a failed reconciliation gate (early Blocked or Waiting return,
with no exception) never prevents the radio actions from toggling the
flag and calling the supervisor: start-radio with a clear flag still
issues its start call and sets the flag; stop-radio with a set flag still
issues its stop call and clears it. -/
theorem c10_gate_failure_never_blocks_actions (s : CharmState)
    (he : (configure s).error = none)
    (hgate : (configure s).state.unitStatus ≠ Status.active) :
    (s.gnbRunning = false →
      (onStartRadioAction s).state.gnbRunning = true
      ∧ (onStartRadioAction s).effects.countP isStartEffect = 1)
    ∧ (s.gnbRunning = true →
      (onStopRadioAction s).state.gnbRunning = false
      ∧ (onStopRadioAction s).effects.countP isStopEffect = 1) := by
  exact ⟨fun hf => ⟨(onStart_of_flag_false s he hf).1, (onStart_of_flag_false s he hf).2.1⟩,
    fun hf => ⟨(onStop_of_flag_true s he hf).1, (onStop_of_flag_true s he hf).2.1⟩⟩

/-- C10 witness: reconciliation blocks on the missing N2 relation, yet
the start action still starts the service and sets the flag. -/
theorem c10_gate_failure_never_blocks_actions_witness :
    (configure sNoN2).error = none
    ∧ (configure sNoN2).state.unitStatus ≠ Status.active
    ∧ ((sNoN2.gnbRunning = false →
      (onStartRadioAction sNoN2).state.gnbRunning = true
      ∧ (onStartRadioAction sNoN2).effects.countP isStartEffect = 1)
    ∧ (sNoN2.gnbRunning = true →
      (onStopRadioAction sNoN2).state.gnbRunning = false
      ∧ (onStopRadioAction sNoN2).effects.countP isStopEffect = 1)) :=
  ⟨by decide, by decide,
    c10_gate_failure_never_blocks_actions sNoN2 (by decide) (by decide)⟩

/-- C6: when the configured tac is present but does not parse as a
base-16 integer, the identity-publish step publishes to no relation
instance, raises nothing, and the reconciliation pass still ends Active
once all gates passed. -/
theorem c6_bad_tac_skips_publish_still_active (s : CharmState) (t : String)
    (hg : gatesPass s = true) (ht : s.config.tac = some t)
    (hp : parseHexInt t = none) :
    (configure s).error = none
    ∧ (configure s).state.unitStatus = Status.active
    ∧ (configure s).effects.countP isPublishEffect = 0 := by
  obtain ⟨herr, hact⟩ := configure_gates_active s hg
  refine ⟨herr, hact, ?_⟩
  rw [configure_eq_postGates s hg, postGates_effects]
  have ht1 : (writeStep s).1.config.tac = some t := by
    rw [(writeStep_frame s).1]; exact ht
  rw [update_no_publish_of_tac_unparseable (writeStep s).1 t ht1 hp]
  rw [List.countP_cons]
  simp only [List.append_nil, isPublishEffect]
  have hz : (writeStep s).2.countP isPublishEffect = 0 := by
    apply countP_zero_of_all
    intro e he
    rcases writeStep_effects s e he with rfl | rfl | rfl <;> rfl
  rw [hz]
  simp

/-- C6 witness: tac set to the non-hex string zz. -/
theorem c6_bad_tac_skips_publish_still_active_witness :
    gatesPass sBadTac = true
    ∧ sBadTac.config.tac = some "zz"
    ∧ parseHexInt "zz" = none
    ∧ ((configure sBadTac).error = none
      ∧ (configure sBadTac).state.unitStatus = Status.active
      ∧ (configure sBadTac).effects.countP isPublishEffect = 0) :=
  ⟨by decide, by decide, by decide,
    c6_bad_tac_skips_publish_still_active sBadTac "zz" (by decide) (by decide) (by decide)⟩

/-- C5: whenever the rendered content differs from the stored artifact
(including when the file is absent) on a pass whose gates all pass,
reconciliation pushes the new content and adds the pebble layer, but the
service is actually restarted exactly when the persisted flag is set; a
clear flag means the layer lands while the process stays stopped, and
reconciliation itself never issues a start call. -/
theorem c5_write_and_conditional_restart (s : CharmState)
    (hg : gatesPass s = true)
    (hd : configFileContentMatches s.container (renderedContent s) = false) :
    Effect.configPushed (renderedContent s) ∈ (configure s).effects
    ∧ Effect.layerAdded ∈ (configure s).effects
    ∧ (configure s).state.container.gnbConfig = some (renderedContent s)
    ∧ (configure s).state.container.planServices = some ueransimLayerServices
    ∧ (Effect.serviceRestarted ∈ (configure s).effects ↔ s.gnbRunning = true)
    ∧ (configure s).effects.countP isStartEffect = 0 := by
  have hns := configure_no_start s
  rw [configure_eq_postGates s hg] at hns ⊢
  have heff := postGates_effects s
  have hws := writeStep_of_differs s hd
  refine ⟨?_, ?_, ?_, ?_, ?_, hns⟩
  · rw [heff, hws]
    simp
  · rw [heff, hws]
    simp only [List.mem_cons, List.mem_append]
    right; left; right
    exact cuw_layer_mem _ s.gnbRunning
  · exact postGates_gnbConfig s
  · rw [postGates_container, hws]
    exact cuw_restart_plan _ s.gnbRunning
  · rw [heff, hws]
    constructor
    · intro h
      simp only [List.mem_cons, List.mem_append] at h
      rcases h with h | (h | h) | h
      · exact absurd h (by simp)
      · exact absurd h (by simp)
      · exact (cuw_restart_iff _ s.gnbRunning).mp h
      · exact absurd h (update_no_restart _)
    · intro h
      simp only [List.mem_cons, List.mem_append]
      right; left; right
      exact (cuw_restart_iff _ s.gnbRunning).mpr h

/-- C5 witness: fresh container (no stored file), flag clear. -/
theorem c5_write_and_conditional_restart_witness :
    gatesPass sFull = true
    ∧ configFileContentMatches sFull.container (renderedContent sFull) = false
    ∧ (Effect.configPushed (renderedContent sFull) ∈ (configure sFull).effects
      ∧ Effect.layerAdded ∈ (configure sFull).effects
      ∧ (configure sFull).state.container.gnbConfig = some (renderedContent sFull)
      ∧ (configure sFull).state.container.planServices = some ueransimLayerServices
      ∧ (Effect.serviceRestarted ∈ (configure sFull).effects ↔ sFull.gnbRunning = true)
      ∧ (configure sFull).effects.countP isStartEffect = 0) :=
  ⟨by decide, by decide,
    c5_write_and_conditional_restart sFull (by decide) (by decide)⟩

/-- C3: reconciliation is idempotent on the rendered artifact.  A pass
that ends Active writes at most once, and a second pass from the
resulting state (inputs unchanged) finds the stored artifact equal to the
rendered content, so it issues no push and no restart; and a container
with no stored file never matches, so an absent file forces a write. -/
theorem c3_second_pass_writes_nothing (s : CharmState)
    (ha : (configure s).state.unitStatus = Status.active)
    (he : (configure s).error = none) :
    (configure s).effects.countP isPushEffect ≤ 1
    ∧ (configure ((configure s).state)).effects.countP isPushEffect = 0
    ∧ (configure ((configure s).state)).effects.countP isRestartEffect = 0
    ∧ (∀ (c : ContainerState) (content : String),
        c.gnbConfig = none → configFileContentMatches c content = false) := by
  have hg := configure_active_gatesPass s ha he
  obtain ⟨f1, f2, f3, f4, f5, f6, f7, f8, f9, f10, f11, f12, f13⟩ := configure_frame s
  have p1 : (configure s).effects.countP isPushEffect ≤ 1 := by
    rw [configure_eq_postGates s hg, postGates_effects, List.countP_cons,
      List.countP_append]
    have hu : (updateFivegGnbIdentityRelationData (writeStep s).1).1.countP
        isPushEffect = 0 :=
      update_count_zero _ _ (fun rid name v => rfl)
    simpa [hu, isPushEffect] using writeStep_push_le_one s
  have hg1 : gatesPass (configure s).state = true := by
    unfold gatesPass validationOk at hg ⊢
    rw [f1, f2, f12, f13, f6, f4, f5]
    exact hg
  have hrc : renderedContent (configure s).state = renderedContent s := by
    unfold renderedContent
    rw [f1, f4, f5, f9]
  have hcfg : (configure s).state.container.gnbConfig = some (renderedContent s) := by
    rw [configure_eq_postGates s hg]
    exact postGates_gnbConfig s
  have hm : configFileContentMatches (configure s).state.container
      (renderedContent (configure s).state) = true := by
    apply matches_of_same_content
    rw [hrc]
    exact hcfg
  have hws1 : writeStep (configure s).state = ((configure s).state, []) :=
    writeStep_of_matches _ hm
  have heff1 := postGates_effects (configure s).state
  rw [hws1] at heff1
  have p2 : (configure ((configure s).state)).effects.countP isPushEffect = 0 := by
    rw [configure_eq_postGates _ hg1, heff1, List.countP_cons]
    have hu := update_count_zero (configure s).state isPushEffect
      (fun rid name v => rfl)
    simp [isPushEffect, hu]
  have p3 : (configure ((configure s).state)).effects.countP isRestartEffect = 0 := by
    rw [configure_eq_postGates _ hg1, heff1, List.countP_cons]
    have hu := update_count_zero (configure s).state isRestartEffect
      (fun rid name v => rfl)
    simp [isRestartEffect, hu]
  refine ⟨p1, p2, p3, ?_⟩
  intro c content h
  unfold configFileContentMatches
  rw [h]

/-- C3 witness: a full pass from a fresh container ends Active with one
write; the second pass writes and restarts nothing. -/
theorem c3_second_pass_writes_nothing_witness :
    (configure sFull).state.unitStatus = Status.active
    ∧ (configure sFull).error = none
    ∧ ((configure sFull).effects.countP isPushEffect ≤ 1
      ∧ (configure ((configure sFull).state)).effects.countP isPushEffect = 0
      ∧ (configure ((configure sFull).state)).effects.countP isRestartEffect = 0
      ∧ (∀ (c : ContainerState) (content : String),
          c.gnbConfig = none → configFileContentMatches c content = false)) :=
  ⟨by decide, by decide,
    c3_second_pass_writes_nothing sFull (by decide) (by decide)⟩
